import Mathlib

/-!
Verification development for the mahoraga-trading repository.

The decision-and-safety path of the system is embedded shallowly:
pure TypeScript functions become Lean functions over ℚ (JavaScript
numbers are modelled as rationals except where binary floating point
itself is the subject, in which case rounding to binary is modelled
explicitly), stateful tool handlers become explicit state-passing
functions over a `World` record, and fallible operations return
`Except`.  Components of the repository whose implementation files are
absent from the snapshot (the policy engine `src/policy/engine.ts`, the
approval protocol `src/policy/approval.ts`, and the signal aggregator)
are modelled from the specification; each such definition carries a doc
comment starting with `Modelled from the spec:`.
-/

namespace Mahoraga

/-! ## Basic enumerations (mirroring the zod enums in src/mcp/agent.ts) -/

/-- Order side, mirroring the zod enum in orders-preview. -/
inductive Side where
  | buy
  | sell
deriving DecidableEq, Repr

/-- Order type, mirroring the zod enum in orders-preview. -/
inductive OrderType where
  | market
  | limit
  | stop
  | stop_limit
deriving DecidableEq, Repr

/-- Asset class determined in orders-preview via the asset lookup. -/
inductive AssetClass where
  | us_equity
  | crypto
deriving DecidableEq, Repr

/-- Time in force, mirroring the zod enum in orders-preview. -/
inductive TimeInForce where
  | day
  | gtc
  | ioc
  | fok
deriving DecidableEq, Repr

/-! ## Data model of the policy engine inputs

The record shapes follow `src/providers/types.ts` and the fixtures of the
PolicyEngine test suite.  Monetary quantities are rationals; timestamps
are rationals (an instant on a global clock). -/

/-- Broker account snapshot (the fields produced by `parseAccount` in
src/providers/alpaca/trading.ts). -/
structure Account where
  id : String
  account_number : String
  status : String
  currency : String
  cash : ℚ
  buying_power : ℚ
  regt_buying_power : ℚ
  daytrading_buying_power : ℚ
  equity : ℚ
  last_equity : ℚ
  long_market_value : ℚ
  short_market_value : ℚ
  portfolio_value : ℚ
  pattern_day_trader : Bool
  trading_blocked : Bool
  transfers_blocked : Bool
  account_blocked : Bool
  multiplier : String
  shorting_enabled : Bool
  maintenance_margin : ℚ
  initial_margin : ℚ
  daytrade_count : ℕ
  created_at : String
deriving DecidableEq, Repr

/-- Broker position snapshot (the fields produced by `parsePosition` in
src/providers/alpaca/trading.ts). -/
structure Position where
  asset_id : String
  symbol : String
  exchange : String
  asset_class : String
  avg_entry_price : ℚ
  qty : ℚ
  side : String
  market_value : ℚ
  cost_basis : ℚ
  unrealized_pl : ℚ
  unrealized_plpc : ℚ
  unrealized_intraday_pl : ℚ
  unrealized_intraday_plpc : ℚ
  current_price : ℚ
  lastday_price : ℚ
  change_today : ℚ
deriving DecidableEq, Repr

/-- Market clock as returned by the broker (src/providers/types.ts). -/
structure MarketClock where
  timestamp : String
  is_open : Bool
  next_open : String
  next_close : String
deriving DecidableEq, Repr

/-- Latest quote for a symbol (src/providers/types.ts). -/
structure Quote where
  bid_price : ℚ
  ask_price : ℚ
deriving DecidableEq, Repr

/-- Asset metadata; the source field `class` is renamed `asset_class`
because `class` is a Lean keyword. -/
structure Asset where
  asset_class : String
deriving DecidableEq, Repr

/-- Risk state record (shape from the PolicyEngine test fixtures and
src/storage/d1/queries/risk-state usage in src/mcp/agent.ts). -/
structure RiskState where
  kill_switch_active : Bool
  kill_switch_reason : Option String := none
  kill_switch_at : Option ℚ := none
  daily_loss_usd : ℚ := 0
  daily_loss_reset_at : ℚ := 0
  last_loss_at : Option ℚ := none
  cooldown_until : Option ℚ := none
deriving DecidableEq, Repr

/-- Order preview handed to the policy engine (shape from
src/mcp/agent.ts orders-preview and the PolicyEngine test fixtures). -/
structure OrderPreview where
  symbol : String
  asset_class : AssetClass
  side : Side
  qty : Option ℚ
  notional : Option ℚ
  order_type : OrderType
  limit_price : Option ℚ := none
  stop_price : Option ℚ := none
  time_in_force : TimeInForce
  estimated_price : ℚ
  estimated_cost : ℚ
deriving DecidableEq, Repr

/-- Policy configuration snapshot (shape from the PolicyEngine test
fixture `createTestConfig`; the options sub-configuration is omitted
because only `evaluateOptionsOrder` consumes it and no claim touches
options policy). -/
structure PolicyConfig where
  max_position_pct_equity : ℚ
  max_open_positions : ℕ
  max_notional_per_trade : ℚ
  allowed_order_types : List OrderType
  max_daily_loss_pct : ℚ
  cooldown_minutes_after_loss : ℚ
  allowed_symbols : Option (List String)
  deny_symbols : List String
  min_avg_volume : ℚ
  min_price : ℚ
  trading_hours_only : Bool
  extended_hours_allowed : Bool
  approval_token_ttl_seconds : ℚ
  allow_short_selling : Bool
  use_cash_only : Bool
deriving DecidableEq, Repr

/-- A rule hit: rule identifier plus human-readable message.  The rule
identifiers are those asserted by the PolicyEngine test suite. -/
structure RuleHit where
  rule : String
  message : String
deriving DecidableEq, Repr

/-- Result of one policy evaluation (spec section 3,
PolicyEvaluationResult).  The approval fields are filled in by
orders-preview after a successful evaluation. -/
structure PolicyEvaluationResult where
  allowed : Bool
  violations : List RuleHit
  warnings : List RuleHit
  approval_token : Option String := none
  approval_id : Option String := none
  expires_at : Option ℚ := none
deriving DecidableEq, Repr

/-- Evaluation context passed to PolicyEngine.evaluate (shape from the
test fixture `createTestContext`); `now` is the wall-clock instant of
the evaluation, made explicit in the embedding. -/
structure PolicyContext where
  order : OrderPreview
  account : Account
  positions : List Position
  clock : MarketClock
  riskState : RiskState
  now : ℚ
deriving Repr

/-! ## Policy engine -/

/-- Effective notional of an order: the explicit notional when present,
otherwise quantity times estimated price (the fallback asserted by the
test "handles notional calculation from qty"). -/
def effectiveNotional (o : OrderPreview) : ℚ :=
  o.notional.getD ((o.qty.getD 0) * o.estimated_price)

/-- Market value the account already holds in a symbol
(case-insensitive match). -/
def existingPositionValue (positions : List Position) (symU : String) : ℚ :=
  ((positions.filter (fun p => p.symbol.toUpper = symU)).map Position.market_value).sum

/-- Quantity the account already holds in a symbol (case-insensitive
match). -/
def heldQuantity (positions : List Position) (symU : String) : ℚ :=
  ((positions.filter (fun p => p.symbol.toUpper = symU)).map Position.qty).sum

namespace PolicyEngine

/-- Modelled from the spec: the implementation file `src/policy/engine.ts`
is not in the snapshot - only its test suite and its caller in
src/mcp/agent.ts are.  The rule set, its order, the rule identifiers and
the fail-closed handling of zero equity follow spec section 4.2 ("Rule
evaluation order", rules 1-11, with "equity of zero must not
divide-by-zero; treat percentage-based checks as automatically failing")
together with the rule identifiers and numeric behaviour asserted by the
PolicyEngine tests.  All rules run and all violations are collected;
`allowed` is true exactly when no violation was collected, and warnings
never block.  The position-size proximity warning threshold (a
"configured margin below the ceiling", spec rule 8) is modelled as 80%
of the ceiling, consistent with the warning test (9% of equity against a
10% ceiling warns). -/
def evaluate (cfg : PolicyConfig) (ctx : PolicyContext) : PolicyEvaluationResult :=
  let o := ctx.order
  let eqy := ctx.account.equity
  let symU := o.symbol.toUpper
  let notional := effectiveNotional o
  let vKill : List RuleHit :=
    if ctx.riskState.kill_switch_active then
      [⟨"kill_switch", "Kill switch is active"⟩] else []
  let vCooldown : List RuleHit :=
    match ctx.riskState.cooldown_until with
    | some t => if ctx.now < t then [⟨"loss_cooldown", "Loss cooldown is active"⟩] else []
    | none => []
  let vDaily : List RuleHit :=
    if eqy ≤ 0 then [⟨"daily_loss_limit", "Equity is zero; failing closed"⟩]
    else if cfg.max_daily_loss_pct * eqy ≤ ctx.riskState.daily_loss_usd then
      [⟨"daily_loss_limit", "Daily loss limit reached"⟩] else []
  let hoursViolations : List RuleHit :=
    if cfg.trading_hours_only ∧ o.asset_class = AssetClass.us_equity
        ∧ ctx.clock.is_open = false ∧ cfg.extended_hours_allowed = false then
      [⟨"trading_hours", "Market is closed"⟩] else []
  let hoursWarnings : List RuleHit :=
    if cfg.trading_hours_only ∧ o.asset_class = AssetClass.us_equity
        ∧ ctx.clock.is_open = false ∧ cfg.extended_hours_allowed = true then
      [⟨"extended_hours", "Order will execute in extended hours"⟩] else []
  let vDeny : List RuleHit :=
    if (cfg.deny_symbols.map String.toUpper).contains symU then
      [⟨"symbol_denied", "Symbol is on the deny list"⟩] else []
  let vAllow : List RuleHit :=
    match cfg.allowed_symbols with
    | some allow =>
        if (allow.map String.toUpper).contains symU then []
        else [⟨"symbol_not_allowed", "Symbol is not on the allow list"⟩]
    | none => []
  let vType : List RuleHit :=
    if cfg.allowed_order_types.contains o.order_type then []
    else [⟨"order_type_not_allowed", "Order type is not allowed"⟩]
  let vNotional : List RuleHit :=
    if cfg.max_notional_per_trade < notional then
      [⟨"max_notional", "Estimated cost exceeds per-trade maximum"⟩] else []
  let concentration :=
    if eqy ≤ 0 then ([(⟨"max_position_pct", "Equity is zero; failing closed"⟩ : RuleHit)], ([] : List RuleHit))
    else if o.side = Side.buy then
      let ratio := (existingPositionValue ctx.positions symU + notional) / eqy
      if cfg.max_position_pct_equity < ratio then
        ([(⟨"max_position_pct", "Position concentration exceeds limit"⟩ : RuleHit)], ([] : List RuleHit))
      else if cfg.max_position_pct_equity * (8 / 10) < ratio then
        (([] : List RuleHit), [(⟨"position_size_warning", "Approaching position size limit"⟩ : RuleHit)])
      else (([] : List RuleHit), ([] : List RuleHit))
    else (([] : List RuleHit), ([] : List RuleHit))
  let heldSymbols := ctx.positions.map (fun p => p.symbol.toUpper)
  let vMaxPos : List RuleHit :=
    if o.side = Side.buy ∧ heldSymbols.contains symU = false
        ∧ cfg.max_open_positions ≤ ctx.positions.length then
      [⟨"max_open_positions", "Maximum open position count reached"⟩] else []
  let vShort : List RuleHit :=
    if o.side = Side.sell ∧ cfg.allow_short_selling = false
        ∧ heldQuantity ctx.positions symU < o.qty.getD 0 then
      [⟨"short_selling_blocked", "Sell exceeds held quantity"⟩] else []
  let vFunds : List RuleHit :=
    if o.side = Side.buy
        ∧ (if cfg.use_cash_only then ctx.account.cash < notional
           else ctx.account.buying_power < notional) then
      [⟨"insufficient_funds", "Estimated cost exceeds available funds"⟩] else []
  let violations :=
    vKill ++ vCooldown ++ vDaily ++ hoursViolations ++ vDeny ++ vAllow ++ vType
      ++ vNotional ++ concentration.1 ++ vMaxPos ++ vShort ++ vFunds
  { allowed := violations.isEmpty
    violations := violations
    warnings := hoursWarnings ++ concentration.2 }

end PolicyEngine

/-! ## Position lifecycle: trailing-stop exit logic

Embedded from the `runAnalyst()` exit-logic snippet in
src/docs/hybrid-improvements.md (section "4. Trailing Stops"): the
highest-price ratchet runs first, then the trailing-stop trigger is
checked against the updated peak, gated on a strictly positive
unrealized P and L percentage. -/

/-- Per-position trailing-stop state (the PositionEntry fields added by
the trailing-stop change in docs/hybrid-improvements.md). -/
structure PositionEntry where
  highest_price : ℚ
  trailing_stop_pct : ℚ
deriving DecidableEq, Repr

/-- Highest-price ratchet: `if (pos.current_price > entry.highest_price)
entry.highest_price = pos.current_price`. -/
def updateHighestPrice (entry : PositionEntry) (current : ℚ) : PositionEntry :=
  if entry.highest_price < current then { entry with highest_price := current } else entry

/-- One cycle of the trailing-stop logic of `runAnalyst()` for one open
position: returns the updated entry and whether a trailing-stop sell
candidate was emitted.  `plPct` is the position's unrealized P and L
percentage at the current price. -/
def runAnalystTrailingStep (entry : PositionEntry) (current plPct : ℚ) :
    PositionEntry × Bool :=
  let e := updateHighestPrice entry current
  let trailingStopPrice := e.highest_price * (1 - entry.trailing_stop_pct / 100)
  let trigger :=
    decide (0 < e.highest_price) && decide (0 < entry.trailing_stop_pct)
      && decide (current ≤ trailingStopPrice) && decide (0 < plPct)
  (e, trigger)

/-- The trailing-stop state after a whole price path, one
(price, plPct) pair per cycle. -/
def runAnalystTrailingPath (entry : PositionEntry) (path : List (ℚ × ℚ)) : PositionEntry :=
  path.foldl (fun e pr => (runAnalystTrailingStep e pr.1 pr.2).1) entry

/-! ## Approval protocol and durable state

The agent-side flow (orders-preview, orders-submit, kill-switch-enable)
is embedded from src/mcp/agent.ts.  The durable records and the token
helper functions are modelled from the spec, since
`src/policy/approval.ts` and the D1 query modules are not in the
snapshot. -/

/-- A persisted approval record keyed by approval id (spec section 3,
ApprovalToken: "consumption is guarded by a persisted already-consumed
record keyed by approval id"). -/
structure ApprovalRecord where
  approval_id : String
  order_params : OrderPreview
  issued_at : ℚ
  expires_at : ℚ
  consumed : Bool
deriving DecidableEq, Repr

/-- The data bound inside an approval token.  Modelled from the spec:
`src/policy/approval.ts` is not in the snapshot; per spec sections 3 and
4.3 the token is a signed, tamper-evident binding of the exact order
parameters and the approval id.  The HMAC layer is modelled by the
structural binding itself: a tampered token manifests as bound
parameters that no longer match the persisted record and is rejected by
the mismatch check. -/
structure ApprovalTokenData where
  approval_id : String
  order_params : OrderPreview
deriving DecidableEq, Repr

/-- Distinct failure modes of token validation (spec sections 4.3 and 7:
a reused approval id must fail distinctly from an ordinary invalid
token). -/
inductive TokenFailure where
  | invalidToken
  | parameterMismatch
  | alreadyConsumed
  | expired
deriving DecidableEq, Repr

/-- Modelled from the spec: `validateApprovalToken` of
src/policy/approval.ts is not in the snapshot.  Per spec section 4.3,
"verification recomputes the binding and rejects on mismatch, expiry, or
prior consumption", with prior consumption reported distinctly from an
invalid token; replay detection is checked before expiry so that a
replayed id is always reported as a replay. -/
def validateApprovalToken (approvals : List ApprovalRecord)
    (tok : ApprovalTokenData) (now : ℚ) : Except TokenFailure ApprovalRecord :=
  match approvals.find? (fun r => r.approval_id = tok.approval_id) with
  | none => .error .invalidToken
  | some r =>
    if r.order_params ≠ tok.order_params then .error .parameterMismatch
    else if r.consumed then .error .alreadyConsumed
    else if r.expires_at < now then .error .expired
    else .ok r

/-- Modelled from the spec: `consumeApprovalToken` of
src/policy/approval.ts is not in the snapshot.  It marks the persisted
record for the approval id as consumed (spec section 6: atomic
check-and-set on the consumption record). -/
def consumeApprovalToken (approvals : List ApprovalRecord) (id : String) :
    List ApprovalRecord :=
  approvals.map (fun r => if r.approval_id = id then { r with consumed := true } else r)

/-- Modelled from the spec: `generateApprovalToken` of
src/policy/approval.ts is not in the snapshot.  It persists a fresh
unconsumed record with the configured time-to-live and returns the token
binding the exact order parameters, the fresh approval id and the expiry
(spec section 4.3, issue only after an allowed policy result - enforced
by the caller in orders-preview). -/
def generateApprovalToken (approvals : List ApprovalRecord)
    (preview : OrderPreview) (newId : String) (now ttl : ℚ) :
    List ApprovalRecord × ApprovalTokenData × ℚ :=
  (approvals ++ [⟨newId, preview, now, now + ttl, false⟩], ⟨newId, preview⟩, now + ttl)

/-- A trade row written by createTrade after a successful submission
(src/mcp/agent.ts orders-submit). -/
structure TradeRecord where
  approval_id : String
  alpaca_order_id : String
  symbol : String
  side : Side
  qty : Option ℚ
  notional : Option ℚ
  order_type : OrderType
deriving DecidableEq, Repr

/-- An order as submitted to the broker by createOrder
(src/providers/alpaca/trading.ts createOrder body). -/
structure SubmittedOrder where
  symbol : String
  side : Side
  qty : Option ℚ
  notional : Option ℚ
  order_type : OrderType
  time_in_force : TimeInForce
  limit_price : Option ℚ
  stop_price : Option ℚ
  client_order_id : String
deriving DecidableEq, Repr

/-- Broker-side state visible to the embedding: the orders successfully
submitted, and how many cancel-all requests were issued. -/
structure BrokerState where
  submitted : List SubmittedOrder := []
  cancel_all_requests : ℕ := 0
deriving DecidableEq, Repr

/-- The durable state threaded through the tool handlers: risk state,
approval records, trade log and broker-side effects. -/
structure World where
  risk : RiskState
  approvals : List ApprovalRecord
  trades : List TradeRecord
  broker : BrokerState
deriving DecidableEq, Repr

/-- Error codes of the tool handlers (src/lib/errors ErrorCode as used
in src/mcp/agent.ts); the invalid-approval-token failure carries the
validation reason, mirroring `message: validation.reason`. -/
inductive ErrCode where
  | INVALID_INPUT
  | KILL_SWITCH_ACTIVE
  | INVALID_APPROVAL_TOKEN (reason : TokenFailure)
  | MARKET_CLOSED
  | PROVIDER_ERROR
deriving DecidableEq, Repr

/-- Input of the orders-preview tool (the zod schema in
src/mcp/agent.ts). -/
structure PreviewInput where
  symbol : String
  side : Side
  qty : Option ℚ
  notional : Option ℚ
  order_type : OrderType
  limit_price : Option ℚ
  stop_price : Option ℚ
  time_in_force : TimeInForce
deriving DecidableEq, Repr

/-- Estimated price logic of orders-preview (src/mcp/agent.ts lines
322-328): limit price, else stop price; when that is absent (or zero,
mirroring the JavaScript falsy test) the quote is fetched, using the ask
for buys and the bid for sells, and a failed quote fetch falls back to
zero. -/
def previewEstimatedPrice (input : PreviewInput) (quoteResult : Except Unit Quote) : ℚ :=
  let base := (input.limit_price.orElse fun _ => input.stop_price).getD 0
  if base ≠ 0 then base
  else
    match quoteResult with
    | .ok q => if input.side = Side.buy then q.ask_price else q.bid_price
    | .error _ => 0

/-- Asset class determination of orders-preview (src/mcp/agent.ts lines
332-344): the asset lookup decides, defaulting to us_equity; on lookup
failure a symbol containing a slash is treated as crypto. -/
def previewAssetClass (input : PreviewInput) (assetResult : Except Unit (Option Asset)) :
    AssetClass :=
  match assetResult with
  | .ok (some a) => if a.asset_class = "crypto" then AssetClass.crypto else AssetClass.us_equity
  | .ok none => AssetClass.us_equity
  | .error _ => if input.symbol.contains '/' then AssetClass.crypto else AssetClass.us_equity

/-- The order preview record constructed by orders-preview
(src/mcp/agent.ts lines 346-358): the input fields normalized (symbol
upper-cased), plus the estimated price and the estimated cost
`input.notional ?? (input.qty ?? 0) * estimatedPrice`. -/
def buildOrderPreview (input : PreviewInput) (quoteResult : Except Unit Quote)
    (assetResult : Except Unit (Option Asset)) : OrderPreview :=
  { symbol := input.symbol.toUpper
    asset_class := previewAssetClass input assetResult
    side := input.side
    qty := input.qty
    notional := input.notional
    order_type := input.order_type
    limit_price := input.limit_price
    stop_price := input.stop_price
    time_in_force := input.time_in_force
    estimated_price := previewEstimatedPrice input quoteResult
    estimated_cost := input.notional.getD
      ((input.qty.getD 0) * previewEstimatedPrice input quoteResult) }

/-- The orders-preview tool handler (src/mcp/agent.ts lines 294-392).
External reads (account, positions, clock, quote, asset lookup) are
passed as parameters; `newId` is the fresh approval id that
generateApprovalToken would mint.  The risk state is read from the
world.  A token is issued exactly when the policy result is allowed. -/
def ordersPreview (cfg : PolicyConfig) (w : World) (input : PreviewInput)
    (account : Account) (positions : List Position) (clock : MarketClock)
    (quoteResult : Except Unit Quote) (assetResult : Except Unit (Option Asset))
    (now : ℚ) (newId : String) :
    World × Except ErrCode (OrderPreview × PolicyEvaluationResult) :=
  if input.qty = none ∧ input.notional = none then (w, .error .INVALID_INPUT)
  else
    let preview := buildOrderPreview input quoteResult assetResult
    let policyResult := PolicyEngine.evaluate cfg
      { order := preview, account := account, positions := positions
        clock := clock, riskState := w.risk, now := now }
    if policyResult.allowed then
      let issued := generateApprovalToken w.approvals preview newId now
        cfg.approval_token_ttl_seconds
      ({ w with approvals := issued.1 },
        .ok (preview,
          { policyResult with
              approval_token := some issued.2.1.approval_id
              approval_id := some issued.2.1.approval_id
              expires_at := some issued.2.2 }))
    else (w, .ok (preview, policyResult))

/-- The token issued by a preview outcome, if any. -/
def issuedTokenOf (res : Except ErrCode (OrderPreview × PolicyEvaluationResult)) :
    Option String :=
  match res with
  | .ok out => out.2.approval_token
  | .error _ => none

/-- The orders-submit tool handler (src/mcp/agent.ts lines 394-457):
kill-switch check, token validation, market-hours check for day orders,
broker createOrder (its outcome supplied by the `brokerOk` oracle; a
throwing createOrder leaves every record untouched because the handler
returns from the catch), and only after a successful createOrder the
approval id is consumed and the trade row written. -/
def ordersSubmit (w : World) (tok : ApprovalTokenData) (clock : MarketClock)
    (now : ℚ) (brokerOk : Bool) (orderId : String) :
    World × Except ErrCode SubmittedOrder :=
  if w.risk.kill_switch_active then (w, .error .KILL_SWITCH_ACTIVE)
  else
    match validateApprovalToken w.approvals tok now with
    | .error reason => (w, .error (.INVALID_APPROVAL_TOKEN reason))
    | .ok r =>
      let p := r.order_params
      if clock.is_open = false ∧ p.time_in_force = TimeInForce.day then
        (w, .error .MARKET_CLOSED)
      else if brokerOk then
        let ord : SubmittedOrder :=
          { symbol := p.symbol, side := p.side, qty := p.qty, notional := p.notional
            order_type := p.order_type, time_in_force := p.time_in_force
            limit_price := p.limit_price, stop_price := p.stop_price
            client_order_id := r.approval_id }
        ({ w with
            approvals := consumeApprovalToken w.approvals r.approval_id
            broker := { w.broker with submitted := w.broker.submitted ++ [ord] }
            trades := w.trades ++
              [⟨r.approval_id, orderId, p.symbol, p.side, p.qty, p.notional, p.order_type⟩] },
          .ok ord)
      else (w, .error .PROVIDER_ERROR)

/-- Modelled from the spec: `enableKillSwitch` of
src/storage/d1/queries/risk-state.ts is not in the snapshot; per its use
in src/mcp/agent.ts and spec section 3 it sets the persisted kill-switch
flag with the reason. -/
def enableKillSwitch (w : World) (reason : String) (now : ℚ) : World :=
  { w with risk := { w.risk with
      kill_switch_active := true
      kill_switch_reason := some reason
      kill_switch_at := some now } }

/-- The broker cancel-all request issued by the handler
(src/providers/alpaca/trading.ts cancelAllOrders). -/
def cancelAllOrders (w : World) : World :=
  { w with broker := { w.broker with
      cancel_all_requests := w.broker.cancel_all_requests + 1 } }

/-- The kill-switch-enable tool handler (src/mcp/agent.ts lines
534-547): persist the kill switch, then request cancellation of all
outstanding broker orders. -/
def killSwitchEnable (w : World) (reason : String) (now : ℚ) : World :=
  cancelAllOrders (enableKillSwitch w reason now)

/-! ## Signal aggregator

Modelled from the spec: the Signal Aggregator implementation is absent
from the snapshot.  Spec section 4.1: for each symbol the
volume-and-trust-weighted mean of sentiment is computed, symbols whose
total weighted volume is below the configured floor are dropped, and the
ranking breaks ties by total weighted volume descending then by symbol
lexical order.  The numeric primitive log1p is an external real
function; the embedding takes it as a parameter `L1`, so every theorem
below holds for any choice of it. -/

/-- A raw per-source observation (spec section 3, Signal). -/
structure Signal where
  symbol : String
  source : String
  sentiment : ℚ
  volume : ℚ
  weight : ℚ
  observed_at : ℚ
deriving DecidableEq, Repr

/-- The per-symbol aggregation output (spec section 3,
AggregatedConviction). -/
structure AggregatedConviction where
  symbol : String
  weighted_sentiment : ℚ
  total_weighted_volume : ℚ
  source_count : ℕ
deriving DecidableEq, Repr

/-- Total weighted volume of a symbol in a batch:
the sum of weight times log1p volume over the signals for the symbol. -/
def totalWeightedVolume (L1 : ℚ → ℚ) (batch : List Signal) (sym : String) : ℚ :=
  ((batch.filter (fun s => s.symbol = sym)).map (fun s => s.weight * L1 s.volume)).sum

/-- Weighted sentiment mass of a symbol in a batch: the sum of
sentiment times weight times log1p volume over the signals for the
symbol. -/
def weightedSentimentMass (L1 : ℚ → ℚ) (batch : List Signal) (sym : String) : ℚ :=
  ((batch.filter (fun s => s.symbol = sym)).map
    (fun s => s.sentiment * (s.weight * L1 s.volume))).sum

/-- The aggregation entry computed for one symbol of the batch. -/
def convictionOf (L1 : ℚ → ℚ) (batch : List Signal) (sym : String) : AggregatedConviction :=
  { symbol := sym
    weighted_sentiment := weightedSentimentMass L1 batch sym / totalWeightedVolume L1 batch sym
    total_weighted_volume := totalWeightedVolume L1 batch sym
    source_count := (batch.filter (fun s => s.symbol = sym)).length }

/-- Ranking order of the aggregator output: total weighted volume
descending, ties by symbol lexical order (spec section 4.1). -/
def aggRank (a b : AggregatedConviction) : Prop :=
  b.total_weighted_volume < a.total_weighted_volume ∨
    (a.total_weighted_volume = b.total_weighted_volume ∧ a.symbol ≤ b.symbol)

instance : DecidableRel aggRank := fun a b => by
  unfold aggRank
  exact inferInstance

instance : IsTotal AggregatedConviction aggRank := by
  constructor
  intro a b
  unfold aggRank
  rcases lt_trichotomy a.total_weighted_volume b.total_weighted_volume with h | h | h
  · exact Or.inr (Or.inl h)
  · rcases le_total a.symbol b.symbol with hs | hs
    · exact Or.inl (Or.inr ⟨h, hs⟩)
    · exact Or.inr (Or.inr ⟨h.symm, hs⟩)
  · exact Or.inl (Or.inl h)

instance : IsTrans AggregatedConviction aggRank := by
  constructor
  intro a b c hab hbc
  unfold aggRank at *
  rcases hab with h1 | ⟨h1, hs1⟩
  · rcases hbc with h2 | ⟨h2, _⟩
    · exact Or.inl (h2.trans h1)
    · exact Or.inl (h2 ▸ h1)
  · rcases hbc with h2 | ⟨h2, hs2⟩
    · exact Or.inl (h1 ▸ h2)
    · exact Or.inr ⟨h1.trans h2, hs1.trans hs2⟩

/-- Modelled from the spec: the Signal Aggregator (spec section 4.1).
Each symbol of the batch gets the volume-and-trust-weighted mean of its
sentiment; symbols with total weighted volume below `volumeFloor` are
dropped rather than reported at low confidence; the output is ranked by
total weighted volume descending with ties broken by symbol lexical
order.  Pure function of the batch. -/
def aggregateSignals (L1 : ℚ → ℚ) (volumeFloor : ℚ) (batch : List Signal) :
    List AggregatedConviction :=
  let syms := (batch.map Signal.symbol).dedup
  let kept := syms.filter (fun sym => volumeFloor ≤ totalWeightedVolume L1 batch sym)
  (kept.map (convictionOf L1 batch)).insertionSort aggRank

/-! ## Agent configuration schema

Embedded from src/schemas/agent-config.ts.  The unvalidated input is a
record with JavaScript values (numbers as rationals, strings, booleans,
string arrays); each zod check of the schema becomes one potential
issue.  The repository is on zod v3, where a failed value-level check
(number min/max/int/positive, string min-length) marks the parse dirty
without aborting it, and ZodEffects executes the chained refinements on
dirty parses too: every failing field check and every failing
refinement is collected into one issue list.  Only type-level failures
(a value of the wrong type, an unknown enum string, a missing key)
abort the parse before the refinements; those lie outside the
well-typed configuration universe of the embedding, whose llm_provider
field is the enum itself. -/

/-- The llm_provider `z.enum` values "openai-raw", "ai-sdk" and
"cloudflare-gateway"; an unknown enum string is a type-level (aborting)
zod failure and is therefore not representable in the embedding. -/
inductive LlmProvider where
  | openai_raw
  | ai_sdk
  | cloudflare_gateway
deriving DecidableEq, Repr

/-- Unvalidated agent configuration input: the fields of
AgentConfigSchema. -/
structure AgentConfig where
  data_poll_interval_ms : ℚ
  analyst_interval_ms : ℚ
  max_position_value : ℚ
  max_positions : ℚ
  min_sentiment_score : ℚ
  min_analyst_confidence : ℚ
  sell_sentiment_threshold : ℚ
  take_profit_pct : ℚ
  stop_loss_pct : ℚ
  position_size_pct_of_cash : ℚ
  stale_position_enabled : Bool
  stale_min_hold_hours : ℚ
  stale_max_hold_days : ℚ
  stale_min_gain_pct : ℚ
  stale_mid_hold_days : ℚ
  stale_mid_min_gain_pct : ℚ
  stale_social_volume_decay : ℚ
  stale_no_mentions_hours : ℚ
  llm_provider : LlmProvider
  llm_model : String
  llm_analyst_model : String
  llm_max_tokens : ℚ
  options_enabled : Bool
  options_min_confidence : ℚ
  options_max_pct_per_trade : ℚ
  options_max_total_exposure : ℚ
  options_min_dte : ℚ
  options_max_dte : ℚ
  options_target_delta : ℚ
  options_min_delta : ℚ
  options_max_delta : ℚ
  options_stop_loss_pct : ℚ
  options_take_profit_pct : ℚ
  options_max_positions : ℚ
  crypto_enabled : Bool
  crypto_symbols : List String
  crypto_momentum_threshold : ℚ
  crypto_max_position_value : ℚ
  crypto_take_profit_pct : ℚ
  crypto_stop_loss_pct : ℚ
  ticker_blacklist : List String
deriving DecidableEq

/-- One reported validation issue: the path of the offending field and a
message. -/
structure ConfigIssue where
  path : String
  message : String
deriving DecidableEq, Repr

/-- Issues of a `z.number().min(lo).max(hi)` field. -/
def rangeIssues (path : String) (v lo hi : ℚ) : List ConfigIssue :=
  (if v < lo then [⟨path, "below minimum"⟩] else [])
    ++ (if hi < v then [⟨path, "above maximum"⟩] else [])

/-- Issues of a `z.number().positive().max(hi)` field. -/
def positiveMaxIssues (path : String) (v hi : ℚ) : List ConfigIssue :=
  (if v ≤ 0 then [⟨path, "not positive"⟩] else [])
    ++ (if hi < v then [⟨path, "above maximum"⟩] else [])

/-- Issues of a `z.number().int().min(lo).max(hi)` field. -/
def intRangeIssues (path : String) (v lo hi : ℚ) : List ConfigIssue :=
  (if v.den = 1 then [] else [⟨path, "not an integer"⟩]) ++ rangeIssues path v lo hi

/-- Issues of a `z.string().min(1)` field. -/
def nonEmptyStringIssues (path : String) (v : String) : List ConfigIssue :=
  if v.length = 0 then [⟨path, "empty string"⟩] else []

/-- All object-level (per-field) issues of AgentConfigSchema, in field
order.  Marked irreducible so that goals mentioning it for a symbolic
configuration are not unfolded by definitional reduction; proofs about
concrete configurations rewrite with its equation instead. -/
@[irreducible] def agentConfigFieldIssues (c : AgentConfig) : List ConfigIssue :=
  rangeIssues "data_poll_interval_ms" c.data_poll_interval_ms 5000 300000
    ++ rangeIssues "analyst_interval_ms" c.analyst_interval_ms 30000 600000
    ++ positiveMaxIssues "max_position_value" c.max_position_value 100000
    ++ intRangeIssues "max_positions" c.max_positions 1 50
    ++ rangeIssues "min_sentiment_score" c.min_sentiment_score 0 1
    ++ rangeIssues "min_analyst_confidence" c.min_analyst_confidence 0 1
    ++ rangeIssues "sell_sentiment_threshold" c.sell_sentiment_threshold (-1) 1
    ++ rangeIssues "take_profit_pct" c.take_profit_pct 1 100
    ++ rangeIssues "stop_loss_pct" c.stop_loss_pct 1 50
    ++ rangeIssues "position_size_pct_of_cash" c.position_size_pct_of_cash 1 100
    ++ rangeIssues "stale_min_hold_hours" c.stale_min_hold_hours 0 168
    ++ rangeIssues "stale_max_hold_days" c.stale_max_hold_days 1 30
    ++ rangeIssues "stale_min_gain_pct" c.stale_min_gain_pct 0 100
    ++ rangeIssues "stale_mid_hold_days" c.stale_mid_hold_days 1 30
    ++ rangeIssues "stale_mid_min_gain_pct" c.stale_mid_min_gain_pct 0 100
    ++ rangeIssues "stale_social_volume_decay" c.stale_social_volume_decay 0 1
    ++ rangeIssues "stale_no_mentions_hours" c.stale_no_mentions_hours 1 168
    ++ nonEmptyStringIssues "llm_model" c.llm_model
    ++ nonEmptyStringIssues "llm_analyst_model" c.llm_analyst_model
    ++ intRangeIssues "llm_max_tokens" c.llm_max_tokens 100 32000
    ++ rangeIssues "options_min_confidence" c.options_min_confidence 0 1
    ++ rangeIssues "options_max_pct_per_trade" c.options_max_pct_per_trade 0 (1 / 4)
    ++ rangeIssues "options_max_total_exposure" c.options_max_total_exposure 0 (1 / 2)
    ++ intRangeIssues "options_min_dte" c.options_min_dte 1 365
    ++ intRangeIssues "options_max_dte" c.options_max_dte 1 365
    ++ rangeIssues "options_target_delta" c.options_target_delta (1 / 10) (9 / 10)
    ++ rangeIssues "options_min_delta" c.options_min_delta (1 / 10) (9 / 10)
    ++ rangeIssues "options_max_delta" c.options_max_delta (1 / 10) (9 / 10)
    ++ rangeIssues "options_stop_loss_pct" c.options_stop_loss_pct 1 100
    ++ rangeIssues "options_take_profit_pct" c.options_take_profit_pct 1 500
    ++ intRangeIssues "options_max_positions" c.options_max_positions 1 20
    ++ rangeIssues "crypto_momentum_threshold" c.crypto_momentum_threshold (1 / 10) 20
    ++ positiveMaxIssues "crypto_max_position_value" c.crypto_max_position_value 100000
    ++ rangeIssues "crypto_take_profit_pct" c.crypto_take_profit_pct 1 100
    ++ rangeIssues "crypto_stop_loss_pct" c.crypto_stop_loss_pct 1 50

/-- The three chained `.refine` cross-field checks of AgentConfigSchema,
with the paths reported by the source. -/
def agentConfigRefineIssues (c : AgentConfig) : List ConfigIssue :=
  (if c.options_min_delta < c.options_max_delta then []
   else [⟨"options_min_delta", "options_min_delta must be less than options_max_delta"⟩])
    ++ (if c.options_min_dte < c.options_max_dte then []
        else [⟨"options_min_dte", "options_min_dte must be less than options_max_dte"⟩])
    ++ (if c.stale_mid_hold_days ≤ c.stale_max_hold_days then []
        else [⟨"stale_mid_hold_days", "stale_mid_hold_days must be <= stale_max_hold_days"⟩])

/-- Every issue the schema collects for a configuration: the
object-level field issues in field order, then the refinement issues in
chain order - the order zod v3 pushes them into the shared parse
context. -/
def agentConfigAllIssues (c : AgentConfig) : List ConfigIssue :=
  agentConfigFieldIssues c ++ agentConfigRefineIssues c

/-- safeValidateAgentConfig of src/schemas/agent-config.ts: zod v3
safeParse of the schema.  Failed value-level checks dirty the parse
without aborting it and the chained refinements still run on a dirty
parse, so the parse succeeds exactly when no check failed, and
otherwise reports every failing field check together with every failing
refinement.  On success the parsed configuration is returned whole. -/
def safeValidateAgentConfig (c : AgentConfig) : Except (List ConfigIssue) AgentConfig :=
  if agentConfigAllIssues c = [] then .ok c
  else .error (agentConfigAllIssues c)

/-! ## Alpaca monetary field parsing

Embedded from src/providers/alpaca/trading.ts: `parseAccount` and
`parsePosition` convert the broker's decimal strings with the JavaScript
`parseFloat`, which yields the IEEE-754 double nearest to the decimal
value.  The embedding makes the rounding explicit: the exact rational
value denoted by the decimal string is rounded to 53 significant binary
digits (normal-range doubles; the broker's monetary magnitudes are far
from the subnormal and overflow ranges, and exponent-notation inputs do
not occur in the payloads). -/

/-- Raw account payload of the Alpaca trading API (AlpacaAccount in
src/providers/alpaca/trading.ts): monetary fields are decimal
strings. -/
structure AlpacaAccount where
  id : String
  account_number : String
  status : String
  currency : String
  cash : String
  buying_power : String
  regt_buying_power : String
  daytrading_buying_power : String
  equity : String
  last_equity : String
  long_market_value : String
  short_market_value : String
  portfolio_value : String
  pattern_day_trader : Bool
  trading_blocked : Bool
  transfers_blocked : Bool
  account_blocked : Bool
  multiplier : String
  shorting_enabled : Bool
  maintenance_margin : String
  initial_margin : String
  daytrade_count : ℕ
  created_at : String
deriving DecidableEq, Repr

/-- Raw position payload of the Alpaca trading API (AlpacaPosition in
src/providers/alpaca/trading.ts). -/
structure AlpacaPosition where
  asset_id : String
  symbol : String
  exchange : String
  asset_class : String
  avg_entry_price : String
  qty : String
  side : String
  market_value : String
  cost_basis : String
  unrealized_pl : String
  unrealized_plpc : String
  unrealized_intraday_pl : String
  unrealized_intraday_plpc : String
  current_price : String
  lastday_price : String
  change_today : String
deriving DecidableEq, Repr

/-- Natural number denoted by a list of decimal digit characters. -/
def decDigitsVal (l : List Char) : ℕ :=
  l.foldl (fun acc ch => 10 * acc + (ch.toNat - 48)) 0

/-- Exact rational value denoted by a plain decimal string such as
"123.45" or "-0.1" (optional leading minus, integer digits, optional
point and fraction digits - the shape of the broker's monetary
payloads). -/
def decimalStringVal (s : String) : ℚ :=
  let l := s.toList
  let signed := l.head? = some '-'
  let l2 := if signed then l.drop 1 else l
  let ip := l2.takeWhile (fun ch => ch ≠ '.')
  let fp := (l2.dropWhile (fun ch => ch ≠ '.')).drop 1
  let mag : ℚ := (decDigitsVal ip : ℚ) + (decDigitsVal fp : ℚ) / 10 ^ fp.length
  if signed then -mag else mag

/-- Rounding of an exact rational to the nearest IEEE-754 double
(normal range): the significand is rounded to 53 bits at the binary
exponent of the value. -/
def roundToNearestDouble (q : ℚ) : ℚ :=
  if q = 0 then 0
  else
    let e : ℤ := Int.log 2 |q|
    let s : ℤ := 52 - e
    (round (q * (2 : ℚ) ^ s) : ℚ) / (2 : ℚ) ^ s

/-- The JavaScript parseFloat on a broker decimal string: the exact
decimal value rounded to the nearest double. -/
def jsParseFloat (s : String) : ℚ :=
  roundToNearestDouble (decimalStringVal s)

/-- parseAccount of src/providers/alpaca/trading.ts: every monetary
string field goes through parseFloat. -/
def parseAccount (raw : AlpacaAccount) : Account :=
  { id := raw.id
    account_number := raw.account_number
    status := raw.status
    currency := raw.currency
    cash := jsParseFloat raw.cash
    buying_power := jsParseFloat raw.buying_power
    regt_buying_power := jsParseFloat raw.regt_buying_power
    daytrading_buying_power := jsParseFloat raw.daytrading_buying_power
    equity := jsParseFloat raw.equity
    last_equity := jsParseFloat raw.last_equity
    long_market_value := jsParseFloat raw.long_market_value
    short_market_value := jsParseFloat raw.short_market_value
    portfolio_value := jsParseFloat raw.portfolio_value
    pattern_day_trader := raw.pattern_day_trader
    trading_blocked := raw.trading_blocked
    transfers_blocked := raw.transfers_blocked
    account_blocked := raw.account_blocked
    multiplier := raw.multiplier
    shorting_enabled := raw.shorting_enabled
    maintenance_margin := jsParseFloat raw.maintenance_margin
    initial_margin := jsParseFloat raw.initial_margin
    daytrade_count := raw.daytrade_count
    created_at := raw.created_at }

/-- parsePosition of src/providers/alpaca/trading.ts: every monetary
string field goes through parseFloat. -/
def parsePosition (raw : AlpacaPosition) : Position :=
  { asset_id := raw.asset_id
    symbol := raw.symbol
    exchange := raw.exchange
    asset_class := raw.asset_class
    avg_entry_price := jsParseFloat raw.avg_entry_price
    qty := jsParseFloat raw.qty
    side := raw.side
    market_value := jsParseFloat raw.market_value
    cost_basis := jsParseFloat raw.cost_basis
    unrealized_pl := jsParseFloat raw.unrealized_pl
    unrealized_plpc := jsParseFloat raw.unrealized_plpc
    unrealized_intraday_pl := jsParseFloat raw.unrealized_intraday_pl
    unrealized_intraday_plpc := jsParseFloat raw.unrealized_intraday_plpc
    current_price := jsParseFloat raw.current_price
    lastday_price := jsParseFloat raw.lastday_price
    change_today := jsParseFloat raw.change_today }

/-- A rational is dyadic when it is an integer divided by a power of
two; every finite IEEE-754 double is dyadic. -/
def IsDyadicRat (q : ℚ) : Prop :=
  ∃ m : ℤ, ∃ k : ℕ, q = (m : ℚ) / 2 ^ k

/-- Whether an evaluation result collected a violation of the given
rule. -/
def hasViolation (res : PolicyEvaluationResult) (ruleId : String) : Bool :=
  res.violations.any (fun v => v.rule = ruleId)

/-! ## Concrete fixtures

Concrete inputs, taken from the repository's test fixtures, used to
instantiate the theorems below on closed data. -/

/-- The policy configuration of the PolicyEngine test fixture
`createTestConfig`. -/
def testPolicyConfig : PolicyConfig :=
  { max_position_pct_equity := 1 / 10
    max_open_positions := 5
    max_notional_per_trade := 5000
    allowed_order_types := [OrderType.market, OrderType.limit]
    max_daily_loss_pct := 1 / 50
    cooldown_minutes_after_loss := 30
    allowed_symbols := none
    deny_symbols := []
    min_avg_volume := 100000
    min_price := 1
    trading_hours_only := true
    extended_hours_allowed := false
    approval_token_ttl_seconds := 300
    allow_short_selling := false
    use_cash_only := true }

/-- The account of the PolicyEngine test fixture `createTestAccount`. -/
def testAccount : Account :=
  { id := "test-account"
    account_number := "12345"
    status := "ACTIVE"
    currency := "USD"
    cash := 50000
    buying_power := 100000
    regt_buying_power := 100000
    daytrading_buying_power := 0
    equity := 100000
    last_equity := 100000
    long_market_value := 50000
    short_market_value := 0
    portfolio_value := 100000
    pattern_day_trader := false
    trading_blocked := false
    transfers_blocked := false
    account_blocked := false
    multiplier := "1"
    shorting_enabled := false
    maintenance_margin := 0
    initial_margin := 0
    daytrade_count := 0
    created_at := "2024-01-01T00:00:00Z" }

/-- The order of the PolicyEngine test fixture `createTestOrder`. -/
def testOrder : OrderPreview :=
  { symbol := "AAPL"
    asset_class := AssetClass.us_equity
    side := Side.buy
    qty := some 10
    notional := some 1500
    order_type := OrderType.market
    limit_price := none
    stop_price := none
    time_in_force := TimeInForce.day
    estimated_price := 150
    estimated_cost := 1500 }

/-- An open market clock, as in the PolicyEngine test fixture
`createTestClock`. -/
def testClock : MarketClock :=
  { timestamp := "2024-01-02T10:00:00Z"
    is_open := true
    next_open := "2024-01-02T09:30:00Z"
    next_close := "2024-01-02T16:00:00Z" }

/-- A quiescent risk state, as in the PolicyEngine test fixture
`createTestRiskState`. -/
def testRiskState : RiskState :=
  { kill_switch_active := false }

/-- The kill-switch test context: an otherwise perfectly compliant order
with the kill switch active. -/
def killSwitchContext : PolicyContext :=
  { order := testOrder
    account := testAccount
    positions := []
    clock := testClock
    riskState := { testRiskState with
      kill_switch_active := true
      kill_switch_reason := some "Manual halt" }
    now := 0 }

/-- The zero-equity edge case context of the PolicyEngine test suite. -/
def zeroEquityContext : PolicyContext :=
  { order := testOrder
    account := { testAccount with equity := 0 }
    positions := []
    clock := testClock
    riskState := { testRiskState with daily_loss_usd := 100 }
    now := 0 }

/-- A world holding one freshly issued, unconsumed approval record. -/
def issuedWorld : World :=
  { risk := testRiskState
    approvals := [⟨"ap-1", testOrder, 0, 300, false⟩]
    trades := []
    broker := {} }

/-- The token bound to the approval record of `issuedWorld`. -/
def issuedToken : ApprovalTokenData :=
  ⟨"ap-1", testOrder⟩

/-- An empty world with the kill switch off. -/
def quietWorld : World :=
  { risk := testRiskState
    approvals := []
    trades := []
    broker := {} }

/-- A market preview request with neither limit nor stop price and no
notional. -/
def noPricePreviewInput : PreviewInput :=
  { symbol := "AAPL"
    side := Side.buy
    qty := some 10
    notional := none
    order_type := OrderType.market
    limit_price := none
    stop_price := none
    time_in_force := TimeInForce.day }

/-- The valid configuration of the agent-config test fixture
`createValidConfig`. -/
def validAgentConfig : AgentConfig :=
  { data_poll_interval_ms := 30000
    analyst_interval_ms := 120000
    max_position_value := 5000
    max_positions := 5
    min_sentiment_score := 3 / 10
    min_analyst_confidence := 3 / 5
    sell_sentiment_threshold := -(1 / 5)
    take_profit_pct := 10
    stop_loss_pct := 5
    position_size_pct_of_cash := 10
    stale_position_enabled := true
    stale_min_hold_hours := 4
    stale_max_hold_days := 7
    stale_min_gain_pct := 5
    stale_mid_hold_days := 3
    stale_mid_min_gain_pct := 2
    stale_social_volume_decay := 3 / 10
    stale_no_mentions_hours := 12
    llm_provider := LlmProvider.openai_raw
    llm_model := "gpt-4o-mini"
    llm_analyst_model := "gpt-4o"
    llm_max_tokens := 4000
    options_enabled := false
    options_min_confidence := 4 / 5
    options_max_pct_per_trade := 1 / 50
    options_max_total_exposure := 1 / 10
    options_min_dte := 30
    options_max_dte := 60
    options_target_delta := 1 / 2
    options_min_delta := 3 / 10
    options_max_delta := 7 / 10
    options_stop_loss_pct := 50
    options_take_profit_pct := 100
    options_max_positions := 3
    crypto_enabled := false
    crypto_symbols := ["BTC/USD", "ETH/USD"]
    crypto_momentum_threshold := 2
    crypto_max_position_value := 2000
    crypto_take_profit_pct := 15
    crypto_stop_loss_pct := 10
    ticker_blacklist := [] }

/-- A configuration violating both a field constraint
(max_position_value is negative) and a cross-field refinement
(options_min_delta is not below options_max_delta). -/
def mixedInvalidAgentConfig : AgentConfig :=
  { validAgentConfig with
      max_position_value := -1
      options_min_delta := 7 / 10
      options_max_delta := 1 / 2 }

/-- A configuration whose field constraints all pass but which violates
two cross-field refinements (the delta ordering and the dte
ordering). -/
def refineOnlyInvalidAgentConfig : AgentConfig :=
  { validAgentConfig with
      options_min_delta := 7 / 10
      options_max_delta := 1 / 2
      options_min_dte := 60
      options_max_dte := 30 }

/-- A one-signal batch used to instantiate the aggregator theorem. -/
def batch0 : List Signal :=
  [⟨"X", "stocktwits", 4 / 5, 100, 9 / 10, 0⟩]

/-- A raw broker account whose cash field is the decimal string "0.1",
a value with no exact binary floating-point representation. -/
def sampleAlpacaAccount : AlpacaAccount :=
  { id := "acct-1"
    account_number := "12345"
    status := "ACTIVE"
    currency := "USD"
    cash := "0.1"
    buying_power := "200000"
    regt_buying_power := "200000"
    daytrading_buying_power := "0"
    equity := "100000"
    last_equity := "100000"
    long_market_value := "50000"
    short_market_value := "0"
    portfolio_value := "100000"
    pattern_day_trader := false
    trading_blocked := false
    transfers_blocked := false
    account_blocked := false
    multiplier := "1"
    shorting_enabled := false
    maintenance_margin := "0"
    initial_margin := "0"
    daytrade_count := 0
    created_at := "2024-01-01T00:00:00Z" }

/-! ## Shared lemmas -/

/-- The allowed flag of an evaluation is the emptiness of its violation
list. -/
theorem PolicyEngine.allowed_eq_isEmpty (cfg : PolicyConfig) (ctx : PolicyContext) :
    (PolicyEngine.evaluate cfg ctx).allowed
      = (PolicyEngine.evaluate cfg ctx).violations.isEmpty := rfl

/-- PolicyEngine.evaluate never fills the approval fields; they are set
later by orders-preview. -/
theorem PolicyEngine.evaluate_approval_token (cfg : PolicyConfig) (ctx : PolicyContext) :
    (PolicyEngine.evaluate cfg ctx).approval_token = none := rfl

/-- Any collected violation forces allowed to be false. -/
theorem PolicyEngine.allowed_false_of_mem_violations (cfg : PolicyConfig)
    (ctx : PolicyContext) (v : RuleHit)
    (hv : v ∈ (PolicyEngine.evaluate cfg ctx).violations) :
    (PolicyEngine.evaluate cfg ctx).allowed = false := by
  rcases hl : (PolicyEngine.evaluate cfg ctx).violations with _ | ⟨a, l⟩
  · rw [hl] at hv
    cases hv
  · rw [PolicyEngine.allowed_eq_isEmpty, hl]
    rfl

/-- An active kill switch always contributes the kill_switch
violation. -/
theorem PolicyEngine.kill_switch_mem_violations (cfg : PolicyConfig)
    (ctx : PolicyContext) (h : ctx.riskState.kill_switch_active = true) :
    (⟨"kill_switch", "Kill switch is active"⟩ : RuleHit)
      ∈ (PolicyEngine.evaluate cfg ctx).violations := by
  simp [PolicyEngine.evaluate, h]

/-- One trailing-stop cycle ratchets the recorded peak to the maximum of
itself and the current price. -/
theorem runAnalystTrailingStep_highest (entry : PositionEntry) (current plPct : ℚ) :
    (runAnalystTrailingStep entry current plPct).1.highest_price
      = max entry.highest_price current := by
  by_cases hc : entry.highest_price < current
  · simp [runAnalystTrailingStep, updateHighestPrice, hc, max_eq_right hc.le]
  · simp [runAnalystTrailingStep, updateHighestPrice, hc, max_eq_left (not_lt.mp hc)]

/-- The recorded peak never decreases along a price path. -/
theorem runAnalystTrailingPath_mono (entry : PositionEntry) (path : List (ℚ × ℚ)) :
    entry.highest_price ≤ (runAnalystTrailingPath entry path).highest_price := by
  induction path generalizing entry with
  | nil => exact le_refl _
  | cons pr rest ih =>
    refine le_trans ?_ (ih (runAnalystTrailingStep entry pr.1 pr.2).1)
    rw [runAnalystTrailingStep_highest]
    exact le_max_left _ _

/-! ## Claim C1 -/

/-- C1: for every policy evaluation input whose risk state has the
kill-switch flag active, PolicyEngine.evaluate returns a result with
allowed = false, whatever the other inputs are. -/
theorem kill_switch_precedence (cfg : PolicyConfig) (ctx : PolicyContext)
    (h : ctx.riskState.kill_switch_active = true) :
    (PolicyEngine.evaluate cfg ctx).allowed = false :=
  PolicyEngine.allowed_false_of_mem_violations cfg ctx _
    (PolicyEngine.kill_switch_mem_violations cfg ctx h)

/-- Witness for C1: the kill-switch test context (an otherwise perfectly
compliant order) is denied. -/
theorem kill_switch_precedence_witness :
    killSwitchContext.riskState.kill_switch_active = true
      ∧ (PolicyEngine.evaluate testPolicyConfig killSwitchContext).allowed = false :=
  ⟨rfl, kill_switch_precedence testPolicyConfig killSwitchContext rfl⟩

/-! ## Claim C5 -/

/-- C5: with zero account equity, both percentage-of-equity rules (the
daily cumulative loss fraction and the position concentration rule)
evaluate as violations and the evaluation is denied; the evaluation is a
total function, so no division-by-zero or other runtime error can
occur. -/
theorem zero_equity_fails_closed (cfg : PolicyConfig) (ctx : PolicyContext)
    (h : ctx.account.equity = 0) :
    (PolicyEngine.evaluate cfg ctx).allowed = false
      ∧ hasViolation (PolicyEngine.evaluate cfg ctx) "daily_loss_limit" = true
      ∧ hasViolation (PolicyEngine.evaluate cfg ctx) "max_position_pct" = true := by
  have hd : (⟨"daily_loss_limit", "Equity is zero; failing closed"⟩ : RuleHit)
      ∈ (PolicyEngine.evaluate cfg ctx).violations := by
    simp [PolicyEngine.evaluate, h]
  have hp : (⟨"max_position_pct", "Equity is zero; failing closed"⟩ : RuleHit)
      ∈ (PolicyEngine.evaluate cfg ctx).violations := by
    simp [PolicyEngine.evaluate, h]
  refine ⟨PolicyEngine.allowed_false_of_mem_violations cfg ctx _ hd, ?_, ?_⟩
  · rw [hasViolation, List.any_eq_true]
    exact ⟨_, hd, by decide⟩
  · rw [hasViolation, List.any_eq_true]
    exact ⟨_, hp, by decide⟩

/-- Witness for C5: the zero-equity edge-case context of the test suite
is denied with both percentage-of-equity violations collected. -/
theorem zero_equity_fails_closed_witness :
    zeroEquityContext.account.equity = 0
      ∧ ((PolicyEngine.evaluate testPolicyConfig zeroEquityContext).allowed = false
        ∧ hasViolation (PolicyEngine.evaluate testPolicyConfig zeroEquityContext)
            "daily_loss_limit" = true
        ∧ hasViolation (PolicyEngine.evaluate testPolicyConfig zeroEquityContext)
            "max_position_pct" = true) :=
  ⟨rfl, zero_equity_fails_closed testPolicyConfig zeroEquityContext rfl⟩

/-! ## Claim C4 -/

/-- C4: the recorded highest price is updated each cycle to the maximum
of itself and the current price and is non-decreasing along every price
path; a trailing-stop sell candidate is emitted only when the current
price is at most the recorded peak times one minus the trailing-stop
fraction while unrealized P and L is strictly positive, and never when
unrealized P and L is non-positive. -/
theorem trailing_stop_monotonicity (entry : PositionEntry) (current plPct : ℚ)
    (path : List (ℚ × ℚ)) :
    (runAnalystTrailingStep entry current plPct).1.highest_price
        = max entry.highest_price current
      ∧ entry.highest_price ≤ (runAnalystTrailingPath entry path).highest_price
      ∧ ((runAnalystTrailingStep entry current plPct).2 = true →
          current ≤ (runAnalystTrailingStep entry current plPct).1.highest_price
              * (1 - entry.trailing_stop_pct / 100)
            ∧ 0 < plPct)
      ∧ (plPct ≤ 0 → (runAnalystTrailingStep entry current plPct).2 = false) := by
  refine ⟨runAnalystTrailingStep_highest entry current plPct,
    runAnalystTrailingPath_mono entry path, ?_, ?_⟩
  · intro htrig
    rw [runAnalystTrailingStep] at htrig
    simp only [Bool.and_eq_true, decide_eq_true_eq] at htrig
    exact ⟨htrig.1.2, htrig.2⟩
  · intro hpl
    rw [runAnalystTrailingStep]
    simp only [Bool.and_eq_false_iff, decide_eq_false_iff_not, not_lt]
    exact Or.inr hpl

/-- Witness for C4: with peak 120, trailing stop 8 percent and price 110
at positive P and L the trigger fires within the band, and with
non-positive P and L it does not fire. -/
theorem trailing_stop_monotonicity_witness :
    ((110 : ℚ) ≤ (runAnalystTrailingStep ⟨120, 8⟩ 110 10).1.highest_price
        * (1 - (8 : ℚ) / 100)
      ∧ (0 : ℚ) < 10)
      ∧ (runAnalystTrailingStep ⟨120, 8⟩ 110 (-5)).2 = false :=
  ⟨(trailing_stop_monotonicity ⟨120, 8⟩ 110 10 []).2.2.1
      (by norm_num [runAnalystTrailingStep, updateHighestPrice]),
    (trailing_stop_monotonicity ⟨120, 8⟩ 110 (-5) []).2.2.2 (by norm_num)⟩

/-! ## Claim C9 -/

/-- C9: when the broker createOrder call fails, orders-submit returns an
error and leaves the whole durable state - in particular the
consumed-approval records and the trade log - untouched, so the token
stays unconsumed for a later retry; consumption happens only on the
branch where createOrder returned successfully. -/
theorem submit_keeps_state_on_broker_failure (w : World) (tok : ApprovalTokenData)
    (clock : MarketClock) (now : ℚ) (oid : String) :
    (ordersSubmit w tok clock now false oid).1 = w
      ∧ ∃ e, (ordersSubmit w tok clock now false oid).2 = .error e := by
  rw [ordersSubmit]
  by_cases h1 : w.risk.kill_switch_active = true
  · simp [h1]
  · rw [Bool.not_eq_true] at h1
    rcases hv : validateApprovalToken w.approvals tok now with reason | r
    · simp [h1, hv]
    · by_cases h2 : clock.is_open = false ∧ r.order_params.time_in_force = TimeInForce.day
      · simp [h1, hv, h2]
      · simp [h1, hv, h2]

/-! ## Claim C2 -/

/-- Consuming an approval id rewrites exactly the records with that id
to consumed, so a later lookup of the id finds the consumed record. -/
theorem find?_consumeApprovalToken (approvals : List ApprovalRecord) (id : String) :
    (consumeApprovalToken approvals id).find? (fun r => r.approval_id = id)
      = (approvals.find? (fun r => r.approval_id = id)).map
          (fun r => { r with consumed := true }) := by
  induction approvals with
  | nil => rfl
  | cons a l ih =>
    rw [consumeApprovalToken] at ih ⊢
    by_cases h : a.approval_id = id
    · simp [List.find?_cons, h]
    · simp [List.find?_cons, h, ih]

/-- C2: once the submission consuming an approval id has succeeded,
every later submission attempt with the same token fails with the
distinct already-consumed (replay) failure - not the generic
invalid-token failure - and submits nothing to the broker.  The
hypotheses say the id was issued and still consumable at the first
attempt: the kill switch is off, the persisted record matches the token
binding, is unconsumed and unexpired, the market-hours gate passes, and
the broker accepts the order. -/
theorem approval_consumed_exactly_once
    (w : World) (tok : ApprovalTokenData) (r : ApprovalRecord)
    (clock clock2 : MarketClock) (now now2 : ℚ) (ok2 : Bool) (oid oid2 : String)
    (hks : w.risk.kill_switch_active = false)
    (hfind : w.approvals.find? (fun a => a.approval_id = tok.approval_id) = some r)
    (hbind : r.order_params = tok.order_params)
    (hcons : r.consumed = false)
    (hexp : ¬ r.expires_at < now)
    (hmkt : ¬ (clock.is_open = false ∧ r.order_params.time_in_force = TimeInForce.day)) :
    (∃ ord, (ordersSubmit w tok clock now true oid).2 = .ok ord)
      ∧ (ordersSubmit (ordersSubmit w tok clock now true oid).1 tok clock2 now2 ok2 oid2).2
          = .error (.INVALID_APPROVAL_TOKEN .alreadyConsumed)
      ∧ TokenFailure.alreadyConsumed ≠ TokenFailure.invalidToken
      ∧ (ordersSubmit (ordersSubmit w tok clock now true oid).1 tok clock2 now2 ok2 oid2).1
          = (ordersSubmit w tok clock now true oid).1
      ∧ (ordersSubmit (ordersSubmit w tok clock now true oid).1 tok clock2 now2 ok2 oid2).1.broker.submitted
          = (ordersSubmit w tok clock now true oid).1.broker.submitted := by
  have hid : r.approval_id = tok.approval_id := by
    have := List.find?_some hfind
    exact of_decide_eq_true this
  have hval : validateApprovalToken w.approvals tok now = .ok r := by
    rw [validateApprovalToken, hfind]
    simp [hbind, hcons, hexp]
  have hfirst : (ordersSubmit w tok clock now true oid).1
      = { w with
          approvals := consumeApprovalToken w.approvals r.approval_id
          broker := { w.broker with
            submitted := w.broker.submitted ++
              [{ symbol := r.order_params.symbol, side := r.order_params.side
                 qty := r.order_params.qty, notional := r.order_params.notional
                 order_type := r.order_params.order_type
                 time_in_force := r.order_params.time_in_force
                 limit_price := r.order_params.limit_price
                 stop_price := r.order_params.stop_price
                 client_order_id := r.approval_id }]}
          trades := w.trades ++
            [⟨r.approval_id, oid, r.order_params.symbol, r.order_params.side,
              r.order_params.qty, r.order_params.notional, r.order_params.order_type⟩] } := by
    rw [ordersSubmit]
    simp [hks, hval, hmkt]
  have hfirstOk : ∃ ord, (ordersSubmit w tok clock now true oid).2 = .ok ord := by
    rw [ordersSubmit]
    simp [hks, hval, hmkt]
  have hval2 : validateApprovalToken (consumeApprovalToken w.approvals r.approval_id) tok now2
      = .error .alreadyConsumed := by
    rw [validateApprovalToken, hid, find?_consumeApprovalToken, hfind]
    simp [hbind]
  refine ⟨hfirstOk, ?_, by decide, ?_, ?_⟩
  · rw [ordersSubmit, hfirst]
    simp [hks, hval2]
  · rw [ordersSubmit, hfirst]
    simp [hks, hval2]
  · rw [ordersSubmit, hfirst]
    simp [hks, hval2]

/-- Witness for C2: in a world holding one freshly issued approval
record, the first submission succeeds and the second fails as a
replay. -/
theorem approval_consumed_exactly_once_witness :
    (∃ ord, (ordersSubmit issuedWorld issuedToken testClock 10 true "ord-1").2 = .ok ord)
      ∧ (ordersSubmit (ordersSubmit issuedWorld issuedToken testClock 10 true "ord-1").1
            issuedToken testClock 20 true "ord-2").2
          = .error (.INVALID_APPROVAL_TOKEN .alreadyConsumed)
      ∧ TokenFailure.alreadyConsumed ≠ TokenFailure.invalidToken
      ∧ (ordersSubmit (ordersSubmit issuedWorld issuedToken testClock 10 true "ord-1").1
            issuedToken testClock 20 true "ord-2").1
          = (ordersSubmit issuedWorld issuedToken testClock 10 true "ord-1").1
      ∧ (ordersSubmit (ordersSubmit issuedWorld issuedToken testClock 10 true "ord-1").1
            issuedToken testClock 20 true "ord-2").1.broker.submitted
          = (ordersSubmit issuedWorld issuedToken testClock 10 true "ord-1").1.broker.submitted :=
  approval_consumed_exactly_once issuedWorld issuedToken ⟨"ap-1", testOrder, 0, 300, false⟩
    testClock testClock 10 20 true "ord-1" "ord-2"
    rfl (by rfl) rfl rfl (by norm_num) (by simp [testClock])

/-! ## Claim C3 -/

/-- Orders-preview issues no token and leaves the durable state
untouched whenever the kill switch is active in the world it reads. -/
theorem ordersPreview_no_token_of_kill (cfg : PolicyConfig) (w : World)
    (input : PreviewInput) (account : Account) (positions : List Position)
    (clock : MarketClock) (quoteResult : Except Unit Quote)
    (assetResult : Except Unit (Option Asset)) (now : ℚ) (newId : String)
    (h : w.risk.kill_switch_active = true) :
    (ordersPreview cfg w input account positions clock quoteResult assetResult now newId).1 = w
      ∧ issuedTokenOf
          (ordersPreview cfg w input account positions clock quoteResult assetResult now newId).2
        = none := by
  rw [ordersPreview]
  by_cases h0 : input.qty = none ∧ input.notional = none
  · simp [h0, issuedTokenOf]
  · have hall : (PolicyEngine.evaluate cfg
        { order := buildOrderPreview input quoteResult assetResult, account := account
          positions := positions, clock := clock, riskState := w.risk, now := now }).allowed
        = false :=
      PolicyEngine.allowed_false_of_mem_violations _ _ _
        (PolicyEngine.kill_switch_mem_violations _ _ h)
    simp [h0, hall, issuedTokenOf, PolicyEngine.evaluate_approval_token]

/-- C3: enabling the kill switch sets the persisted flag, after which
orders-preview never issues an approval token (and persists nothing),
orders-submit rejects every token - including ones issued before the
switch was enabled - without submitting anything, and the enabling
itself requests cancellation of all outstanding broker orders. -/
theorem kill_switch_preemption (w : World) (reason : String) (tEnable : ℚ) :
    ((killSwitchEnable w reason tEnable).risk.kill_switch_active = true)
      ∧ (∀ (cfg : PolicyConfig) (input : PreviewInput) (account : Account)
          (positions : List Position) (clock : MarketClock)
          (quoteResult : Except Unit Quote) (assetResult : Except Unit (Option Asset))
          (t : ℚ) (newId : String),
          (ordersPreview cfg (killSwitchEnable w reason tEnable) input account positions
              clock quoteResult assetResult t newId).1 = killSwitchEnable w reason tEnable
            ∧ issuedTokenOf (ordersPreview cfg (killSwitchEnable w reason tEnable) input
                account positions clock quoteResult assetResult t newId).2 = none)
      ∧ (∀ (tok : ApprovalTokenData) (clock : MarketClock) (t : ℚ) (ok : Bool)
          (oid : String),
          (ordersSubmit (killSwitchEnable w reason tEnable) tok clock t ok oid).2
              = .error .KILL_SWITCH_ACTIVE
            ∧ (ordersSubmit (killSwitchEnable w reason tEnable) tok clock t ok oid).1
                = killSwitchEnable w reason tEnable)
      ∧ ((killSwitchEnable w reason tEnable).broker.cancel_all_requests
          = w.broker.cancel_all_requests + 1) := by
  refine ⟨rfl, ?_, ?_, rfl⟩
  · intro cfg input account positions clock quoteResult assetResult t newId
    exact ordersPreview_no_token_of_kill cfg _ input account positions clock quoteResult
      assetResult t newId rfl
  · intro tok clock t ok oid
    constructor
    · rw [ordersSubmit]
      rfl
    · rw [ordersSubmit]
      rfl

/-! ## Claim C10 -/

/-- C10: when a preview request carries neither a limit nor a stop price
and the quote fetch fails, the preview is produced (not rejected) with
estimated price zero; with no notional given the estimated cost is zero
as well, and the policy evaluation the result reports is exactly the
evaluation of that zero-cost preview. -/
theorem preview_quote_failure_zero_cost (cfg : PolicyConfig) (w : World)
    (input : PreviewInput) (account : Account) (positions : List Position)
    (clock : MarketClock) (assetResult : Except Unit (Option Asset))
    (now : ℚ) (newId : String)
    (hlp : input.limit_price = none) (hsp : input.stop_price = none)
    (hn : input.notional = none) (hq : input.qty ≠ none) :
    ∃ pv pol,
      (ordersPreview cfg w input account positions clock (.error ()) assetResult now newId).2
          = .ok (pv, pol)
        ∧ pv.estimated_price = 0
        ∧ pv.estimated_cost = 0
        ∧ pol.allowed = (PolicyEngine.evaluate cfg
            { order := pv, account := account, positions := positions, clock := clock
              riskState := w.risk, now := now }).allowed
        ∧ pol.violations = (PolicyEngine.evaluate cfg
            { order := pv, account := account, positions := positions, clock := clock
              riskState := w.risk, now := now }).violations := by
  have h0 : ¬ (input.qty = none ∧ input.notional = none) := fun hc => hq hc.1
  have hprice : previewEstimatedPrice input (.error ()) = 0 := by
    rw [previewEstimatedPrice]
    simp [hlp, hsp]
  have hpv : (buildOrderPreview input (.error ()) assetResult).estimated_price = 0 := hprice
  have hcost : (buildOrderPreview input (.error ()) assetResult).estimated_cost = 0 := by
    rw [buildOrderPreview]
    simp [hn, hprice]
  by_cases hall : (PolicyEngine.evaluate cfg
      { order := buildOrderPreview input (.error ()) assetResult, account := account
        positions := positions, clock := clock, riskState := w.risk, now := now }).allowed
  · have hres : (ordersPreview cfg w input account positions clock (.error ())
        assetResult now newId).2
        = .ok (buildOrderPreview input (.error ()) assetResult,
            { PolicyEngine.evaluate cfg
                { order := buildOrderPreview input (.error ()) assetResult
                  account := account, positions := positions, clock := clock
                  riskState := w.risk, now := now } with
                approval_token := some newId
                approval_id := some newId
                expires_at := some (now + cfg.approval_token_ttl_seconds) }) := by
      rw [ordersPreview]
      simp [h0, hall, generateApprovalToken]
    exact ⟨_, _, hres, hpv, hcost, rfl, rfl⟩
  · have hres : (ordersPreview cfg w input account positions clock (.error ())
        assetResult now newId).2
        = .ok (buildOrderPreview input (.error ()) assetResult,
            PolicyEngine.evaluate cfg
              { order := buildOrderPreview input (.error ()) assetResult
                account := account, positions := positions, clock := clock
                riskState := w.risk, now := now }) := by
      rw [ordersPreview]
      simp [h0, hall]
    exact ⟨_, _, hres, hpv, hcost, rfl, rfl⟩

/-- Witness for C10: the concrete quantity-only market order preview
with a failed quote fetch yields estimated price and cost zero and a
policy verdict computed on that zero cost. -/
theorem preview_quote_failure_zero_cost_witness :
    ∃ pv pol,
      (ordersPreview testPolicyConfig quietWorld noPricePreviewInput testAccount []
          testClock (.error ()) (.ok none) 0 "ap-9").2 = .ok (pv, pol)
        ∧ pv.estimated_price = 0
        ∧ pv.estimated_cost = 0
        ∧ pol.allowed = (PolicyEngine.evaluate testPolicyConfig
            { order := pv, account := testAccount, positions := [], clock := testClock
              riskState := quietWorld.risk, now := 0 }).allowed
        ∧ pol.violations = (PolicyEngine.evaluate testPolicyConfig
            { order := pv, account := testAccount, positions := [], clock := testClock
              riskState := quietWorld.risk, now := 0 }).violations :=
  preview_quote_failure_zero_cost testPolicyConfig quietWorld noPricePreviewInput
    testAccount [] testClock (.ok none) 0 "ap-9" rfl rfl rfl (by simp [noPricePreviewInput])

/-! ## Claim C7 -/

/-- An integer times an integer power of two is a dyadic rational. -/
theorem isDyadicRat_int_mul_zpow (m s : ℤ) : IsDyadicRat ((m : ℚ) * (2 : ℚ) ^ s) := by
  rcases le_or_lt 0 s with h | h
  · lift s to ℕ using h
    refine ⟨m * 2 ^ s, 0, ?_⟩
    push_cast [zpow_natCast]
    ring
  · refine ⟨m, (-s).toNat, ?_⟩
    have h2 : (((-s).toNat : ℤ)) = -s := Int.toNat_of_nonneg (by omega)
    rw [div_eq_mul_inv, ← zpow_natCast (2 : ℚ) (-s).toNat, ← zpow_neg, h2, neg_neg]

/-- Rounding to the nearest double always produces a dyadic rational:
doubles carry a binary significand. -/
theorem isDyadicRat_roundToNearestDouble (q : ℚ) :
    IsDyadicRat (roundToNearestDouble q) := by
  rw [roundToNearestDouble]
  by_cases h : q = 0
  · rw [if_pos h]
    exact ⟨0, 0, by norm_num⟩
  · rw [if_neg h]
    have key : ∀ (r s : ℤ), IsDyadicRat ((r : ℚ) / (2 : ℚ) ^ s) := by
      intro r s
      rw [div_eq_mul_inv, ← zpow_neg]
      exact isDyadicRat_int_mul_zpow r (-s)
    exact key _ _

/-- The rational one tenth is not dyadic: no binary floating-point
value equals the decimal 0.1 exactly. -/
theorem one_tenth_not_dyadic : ¬ IsDyadicRat (1 / 10 : ℚ) := by
  rintro ⟨m, k, h⟩
  have h2k : ((2 : ℚ) ^ k) ≠ 0 := by positivity
  field_simp at h
  have hz : (2 : ℤ) ^ k = m * 10 := by exact_mod_cast h
  have h5 : (5 : ℤ) ∣ 2 ^ k := ⟨2 * m, by rw [hz]; ring⟩
  have hp : Prime (5 : ℤ) := by norm_num
  have := hp.dvd_of_dvd_pow h5
  norm_num at this

/-- C7 (amended): the monetary fields produced by parseAccount and
parsePosition are parseFloat results - the broker's decimal strings
rounded to the nearest binary double - hence always dyadic rationals,
binary floating-point approximations rather than exact decimal-safe
values. -/
theorem broker_monetary_fields_are_binary (rawA : AlpacaAccount) (rawP : AlpacaPosition) :
    (IsDyadicRat (parseAccount rawA).cash
      ∧ IsDyadicRat (parseAccount rawA).equity
      ∧ IsDyadicRat (parseAccount rawA).buying_power)
    ∧ (IsDyadicRat (parsePosition rawP).market_value
      ∧ IsDyadicRat (parsePosition rawP).cost_basis
      ∧ IsDyadicRat (parsePosition rawP).avg_entry_price
      ∧ IsDyadicRat (parsePosition rawP).current_price) :=
  ⟨⟨isDyadicRat_roundToNearestDouble _, isDyadicRat_roundToNearestDouble _,
      isDyadicRat_roundToNearestDouble _⟩,
    isDyadicRat_roundToNearestDouble _, isDyadicRat_roundToNearestDouble _,
    isDyadicRat_roundToNearestDouble _, isDyadicRat_roundToNearestDouble _⟩

/-- Counterexample to C7 as stated: a broker account whose cash string
is "0.1" (exact decimal value one tenth) parses to a cash value that is
not equal to that exact decimal value, because parseFloat rounds to a
binary double and one tenth has no binary representation. -/
theorem broker_monetary_exactness_counterexample :
    decimalStringVal sampleAlpacaAccount.cash = 1 / 10
      ∧ (parseAccount sampleAlpacaAccount).cash ≠ decimalStringVal sampleAlpacaAccount.cash := by
  have hdec : decimalStringVal sampleAlpacaAccount.cash = 1 / 10 := by
    simp +decide [sampleAlpacaAccount, decimalStringVal, decDigitsVal]
  refine ⟨hdec, ?_⟩
  have hform : (parseAccount sampleAlpacaAccount).cash
      = roundToNearestDouble (decimalStringVal sampleAlpacaAccount.cash) := rfl
  rw [hform, hdec]
  intro hEq
  exact one_tenth_not_dyadic (hEq ▸ isDyadicRat_roundToNearestDouble (1 / 10))

/-! ## Claim C8 -/

/-- C8: configuration validation accepts exactly the configurations
satisfying every field constraint and every cross-field refinement;
whatever is returned on success is the whole configuration, never a
partial one; every violating configuration is rejected with the full
enumerated list of failing constraints - all failing field checks
together with all failing refinements, since zod v3 runs the chained
refinements even on a dirty parse - and every rejection carries a
non-empty issue list naming each violated refinement among
options_min_delta < options_max_delta, options_min_dte <
options_max_dte and stale_mid_hold_days <= stale_max_hold_days. -/
theorem agent_config_validation (c : AgentConfig) :
    ((∃ d, safeValidateAgentConfig c = .ok d) ↔ agentConfigAllIssues c = [])
      ∧ (∀ d, safeValidateAgentConfig c = .ok d → d = c)
      ∧ (agentConfigAllIssues c ≠ [] →
          safeValidateAgentConfig c = .error (agentConfigAllIssues c))
      ∧ (∀ issues, safeValidateAgentConfig c = .error issues → issues ≠ [])
      ∧ (¬ c.options_min_delta < c.options_max_delta →
          (⟨"options_min_delta", "options_min_delta must be less than options_max_delta"⟩ :
              ConfigIssue) ∈ agentConfigAllIssues c)
      ∧ (¬ c.options_min_dte < c.options_max_dte →
          (⟨"options_min_dte", "options_min_dte must be less than options_max_dte"⟩ :
              ConfigIssue) ∈ agentConfigAllIssues c)
      ∧ (¬ c.stale_mid_hold_days ≤ c.stale_max_hold_days →
          (⟨"stale_mid_hold_days", "stale_mid_hold_days must be <= stale_max_hold_days"⟩ :
              ConfigIssue) ∈ agentConfigAllIssues c) := by
  by_cases h : agentConfigAllIssues c = []
  · have hok : safeValidateAgentConfig c = .ok c := by
      rw [safeValidateAgentConfig, if_pos h]
    have hrefine : agentConfigRefineIssues c = [] := by
      rw [agentConfigAllIssues] at h
      exact (List.append_eq_nil.mp h).2
    refine ⟨?_, ?_, ?_, ?_, ?_, ?_, ?_⟩
    · rw [hok]
      simp [h]
    · intro d hd
      rw [hok] at hd
      injection hd with h2
      exact h2.symm
    · intro hne
      exact absurd h hne
    · intro issues hiss
      rw [hok] at hiss
      cases hiss
    · intro hc
      exfalso
      rw [agentConfigRefineIssues] at hrefine
      simp [hc] at hrefine
    · intro hc
      exfalso
      rw [agentConfigRefineIssues] at hrefine
      simp [hc] at hrefine
    · intro hc
      exfalso
      rw [agentConfigRefineIssues] at hrefine
      simp [hc] at hrefine
  · have herr : safeValidateAgentConfig c = .error (agentConfigAllIssues c) := by
      rw [safeValidateAgentConfig, if_neg h]
    refine ⟨?_, ?_, ?_, ?_, ?_, ?_, ?_⟩
    · rw [herr]
      simp [h]
    · intro d hd
      rw [herr] at hd
      cases hd
    · intro _hne
      exact herr
    · intro issues hiss
      rw [herr] at hiss
      injection hiss with h2
      rw [← h2]
      exact h
    · intro hc
      rw [agentConfigAllIssues]
      refine List.mem_append.mpr (Or.inr ?_)
      rw [agentConfigRefineIssues]
      simp [hc]
    · intro hc
      rw [agentConfigAllIssues]
      refine List.mem_append.mpr (Or.inr ?_)
      rw [agentConfigRefineIssues]
      simp [hc]
    · intro hc
      rw [agentConfigAllIssues]
      refine List.mem_append.mpr (Or.inr ?_)
      rw [agentConfigRefineIssues]
      simp [hc]

/-- Witness for C8: the configuration violating both a field constraint
and the delta refinement is rejected with the full issue list, which
names the violated delta refinement; the refinement-only-invalid
configuration's issue list names the violated dte refinement. -/
theorem agent_config_validation_witness :
    safeValidateAgentConfig mixedInvalidAgentConfig
        = .error (agentConfigAllIssues mixedInvalidAgentConfig)
      ∧ (⟨"options_min_delta", "options_min_delta must be less than options_max_delta"⟩ :
            ConfigIssue) ∈ agentConfigAllIssues mixedInvalidAgentConfig
      ∧ (⟨"options_min_dte", "options_min_dte must be less than options_max_dte"⟩ :
            ConfigIssue) ∈ agentConfigAllIssues refineOnlyInvalidAgentConfig :=
  ⟨(agent_config_validation mixedInvalidAgentConfig).2.2.1
      (by norm_num [mixedInvalidAgentConfig, validAgentConfig, agentConfigAllIssues,
        agentConfigFieldIssues, agentConfigRefineIssues, rangeIssues, positiveMaxIssues,
        intRangeIssues, nonEmptyStringIssues]; simp +decide),
    (agent_config_validation mixedInvalidAgentConfig).2.2.2.2.1
      (by norm_num [mixedInvalidAgentConfig, validAgentConfig]),
    (agent_config_validation refineOnlyInvalidAgentConfig).2.2.2.2.2.1
      (by norm_num [refineOnlyInvalidAgentConfig, validAgentConfig])⟩

/-! ## Claim C6 -/

/-- Membership in the aggregator output characterized: an entry is
exactly the conviction record of a batch symbol whose total weighted
volume meets the floor. -/
theorem mem_aggregateSignals_iff (L1 : ℚ → ℚ) (volumeFloor : ℚ) (batch : List Signal)
    (e : AggregatedConviction) :
    e ∈ aggregateSignals L1 volumeFloor batch ↔
      ∃ sym, sym ∈ (batch.map Signal.symbol).dedup
        ∧ volumeFloor ≤ totalWeightedVolume L1 batch sym
        ∧ e = convictionOf L1 batch sym := by
  rw [aggregateSignals]
  simp only [List.mem_insertionSort, List.mem_map, List.mem_filter, decide_eq_true_eq]
  constructor
  · rintro ⟨sym, ⟨hmem, hfloor⟩, he⟩
    exact ⟨sym, hmem, hfloor, he.symm⟩
  · rintro ⟨sym, hmem, hfloor, he⟩
    exact ⟨sym, ⟨hmem, hfloor⟩, he.symm⟩

/-- Entries of the aggregator output are the conviction records of
their symbols. -/
theorem aggregateSignals_entry_eq (L1 : ℚ → ℚ) (volumeFloor : ℚ) (batch : List Signal)
    (e : AggregatedConviction) (he : e ∈ aggregateSignals L1 volumeFloor batch) :
    e = convictionOf L1 batch e.symbol := by
  rcases (mem_aggregateSignals_iff L1 volumeFloor batch e).mp he with ⟨sym, _, _, heq⟩
  have hsym : e.symbol = sym := by
    rw [heq]
    rfl
  rw [hsym]
  exact heq

/-- The ranking relation is antisymmetric on entries determined by
their symbols. -/
theorem aggRank_antisymm_on (L1 : ℚ → ℚ) (batch : List Signal)
    (e f : AggregatedConviction)
    (he : e = convictionOf L1 batch e.symbol) (hf : f = convictionOf L1 batch f.symbol)
    (h1 : aggRank e f) (h2 : aggRank f e) : e = f := by
  rcases h1 with h1 | ⟨hv1, hs1⟩
  · rcases h2 with h2 | ⟨hv2, hs2⟩
    · exact absurd h1 (lt_asymm h2)
    · exact absurd h1 (hv2 ▸ lt_irrefl _)
  · rcases h2 with h2 | ⟨hv2, hs2⟩
    · exact absurd h2 (hv1 ▸ lt_irrefl _)
    · have hsym : e.symbol = f.symbol := le_antisymm hs1 hs2
      rw [he, hsym, ← hf]

/-- Two sorted lists that are permutations of each other and on which
the ranking is antisymmetric are equal. -/
theorem eq_of_perm_of_sorted_aggRank :
    ∀ (l1 l2 : List AggregatedConviction), l1.Perm l2 →
      l1.Sorted aggRank → l2.Sorted aggRank →
      (∀ a ∈ l1, ∀ b ∈ l2, aggRank a b → aggRank b a → a = b) → l1 = l2 := by
  intro l1
  induction l1 with
  | nil =>
    intro l2 hp _ _ _
    exact hp.nil_eq
  | cons a t ih =>
    intro l2 hp hs1 hs2 hanti
    cases l2 with
    | nil =>
      exact absurd hp.eq_nil (by simp)
    | cons b t2 =>
      have hab : a = b := by
        by_cases heq : a = b
        · exact heq
        · have haInl2 : a ∈ b :: t2 := hp.mem_iff.mp (List.mem_cons_self a t)
          have hbInl1 : b ∈ a :: t := hp.mem_iff.mpr (List.mem_cons_self b t2)
          have hba : aggRank b a := by
            rcases List.mem_cons.mp haInl2 with h | h
            · exact absurd h heq
            · exact (List.sorted_cons.mp hs2).1 a h
          have hab2 : aggRank a b := by
            rcases List.mem_cons.mp hbInl1 with h | h
            · exact absurd h.symm heq
            · exact (List.sorted_cons.mp hs1).1 b h
          exact hanti a (List.mem_cons_self a t) b (List.mem_cons_self b t2) hab2 hba
      subst hab
      have hpt : t.Perm t2 := hp.cons_inv
      have htail := ih t2 hpt (List.sorted_cons.mp hs1).2 (List.sorted_cons.mp hs2).2
        (fun x hx y hy => hanti x (List.mem_cons_of_mem a hx) y (List.mem_cons_of_mem a hy))
      rw [htail]

/-- C6: the aggregator output contains exactly the batch symbols whose
total weighted volume meets the floor; each entry carries the weighted
sentiment mean and the total weighted volume of its symbol; the output
is sorted by total weighted volume descending with ties broken by
symbol lexical order; symbols appear at most once; and any reordering
of the output that also respects the ranking equals the output - the
ranked list is a deterministic pure function of the batch. -/
theorem aggregation_deterministic (L1 : ℚ → ℚ) (volumeFloor : ℚ) (batch : List Signal) :
    (∀ sym : String,
        (∃ e ∈ aggregateSignals L1 volumeFloor batch, e.symbol = sym)
          ↔ (sym ∈ batch.map Signal.symbol
              ∧ volumeFloor ≤ totalWeightedVolume L1 batch sym))
      ∧ (∀ e ∈ aggregateSignals L1 volumeFloor batch,
          e.weighted_sentiment
              = weightedSentimentMass L1 batch e.symbol / totalWeightedVolume L1 batch e.symbol
            ∧ e.total_weighted_volume = totalWeightedVolume L1 batch e.symbol)
      ∧ (aggregateSignals L1 volumeFloor batch).Sorted aggRank
      ∧ ((aggregateSignals L1 volumeFloor batch).map AggregatedConviction.symbol).Nodup
      ∧ (∀ l : List AggregatedConviction,
          l.Perm (aggregateSignals L1 volumeFloor batch) → l.Sorted aggRank →
            l = aggregateSignals L1 volumeFloor batch) := by
  have hsorted : (aggregateSignals L1 volumeFloor batch).Sorted aggRank := by
    rw [aggregateSignals]
    exact List.sorted_insertionSort aggRank _
  have hperm : (aggregateSignals L1 volumeFloor batch).Perm
      ((((batch.map Signal.symbol).dedup).filter
        (fun sym => volumeFloor ≤ totalWeightedVolume L1 batch sym)).map
          (convictionOf L1 batch)) := by
    rw [aggregateSignals]
    exact List.perm_insertionSort aggRank _
  refine ⟨?_, ?_, hsorted, ?_, ?_⟩
  · intro sym
    constructor
    · rintro ⟨e, he, hsym⟩
      rcases (mem_aggregateSignals_iff L1 volumeFloor batch e).mp he with ⟨s, hmem, hfloor, heq⟩
      have : e.symbol = s := by
        rw [heq]
        rfl
      rw [← hsym, this]
      exact ⟨List.mem_dedup.mp hmem, hfloor⟩
    · rintro ⟨hmem, hfloor⟩
      refine ⟨convictionOf L1 batch sym, ?_, rfl⟩
      exact (mem_aggregateSignals_iff L1 volumeFloor batch _).mpr
        ⟨sym, List.mem_dedup.mpr hmem, hfloor, rfl⟩
  · intro e he
    have := aggregateSignals_entry_eq L1 volumeFloor batch e he
    constructor
    · conv_lhs => rw [this]
      rfl
    · conv_lhs => rw [this]
      rfl
  · have hkeynodup : ((((batch.map Signal.symbol).dedup).filter
        (fun sym => volumeFloor ≤ totalWeightedVolume L1 batch sym)).map
          (convictionOf L1 batch)).map AggregatedConviction.symbol
        = ((batch.map Signal.symbol).dedup).filter
            (fun sym => volumeFloor ≤ totalWeightedVolume L1 batch sym) := by
      rw [List.map_map]
      exact List.map_id _
    have hnd : (((batch.map Signal.symbol).dedup).filter
        (fun sym => volumeFloor ≤ totalWeightedVolume L1 batch sym)).Nodup :=
      (List.nodup_dedup _).filter _
    have hpm := hperm.map AggregatedConviction.symbol
    rw [hkeynodup] at hpm
    exact hpm.nodup_iff.mpr hnd
  · intro l hp hs
    refine eq_of_perm_of_sorted_aggRank l (aggregateSignals L1 volumeFloor batch) hp hs hsorted ?_
    intro x hx y hy h1 h2
    have hxa : x ∈ aggregateSignals L1 volumeFloor batch := hp.mem_iff.mp hx
    exact aggRank_antisymm_on L1 batch x y
      (aggregateSignals_entry_eq L1 volumeFloor batch x hxa)
      (aggregateSignals_entry_eq L1 volumeFloor batch y hy) h1 h2

/-- Witness for C6: in a one-signal batch the single output entry
carries the weighted sentiment mean and total weighted volume of its
symbol. -/
theorem aggregation_deterministic_witness :
    (convictionOf id batch0 "X").weighted_sentiment
        = weightedSentimentMass id batch0 "X" / totalWeightedVolume id batch0 "X"
      ∧ (convictionOf id batch0 "X").total_weighted_volume
          = totalWeightedVolume id batch0 "X" :=
  (aggregation_deterministic id 0 batch0).2.1 (convictionOf id batch0 "X")
    ((mem_aggregateSignals_iff id 0 batch0 _).mpr
      ⟨"X", by simp [batch0], by norm_num [batch0, totalWeightedVolume], rfl⟩)

end Mahoraga
